import Mathlib

/-!
# HEMS emulator — verification of the simulation engine

Shallow embedding of the HEMS emulator backend
(`backend/src/services/simulationEngine.ts` and
`WeatherService` in `weatherService.ts`).  JavaScript numbers are
modelled as rationals (`ℚ`); `Math.round` is modelled exactly
(round half toward +∞); optional fields are `Option`; JavaScript
truthiness of an optional number (`undefined` and `0` are falsy)
is modelled by `jsTruthy`.
-/

namespace HEMS

/-- JavaScript `Math.round`: rounds half toward +∞. -/
def jsRound (q : ℚ) : ℚ := ((⌊q + 1/2⌋ : ℤ) : ℚ)

/-- Truthiness of an optional JS number: `undefined` and `0` are falsy. -/
def jsTruthy : Option ℚ → Bool
  | none => false
  | some v => v != 0

/-! ## Data model (from `backend/src/types/index.ts`) -/

/-- Battery control mode (`BatteryControlModeSchema`). -/
inductive BatteryControlMode
  | auto
  | force_charge
  | force_discharge
  | idle
deriving DecidableEq, Repr

/-- `BatteryConfigSchema`. -/
structure BatteryConfig where
  capacityKwh : ℚ
  maxChargePowerW : ℚ
  maxDischargePowerW : ℚ
  efficiency : ℚ
  minSoc : ℚ
  maxSoc : ℚ
deriving DecidableEq, Repr

/-- `BatteryStateSchema`.  `controlMode` is read by the engine through
`?? 'auto'`, so it is kept optional here; `forcePowerW` is optional. -/
structure BatteryState where
  batteryLevel : ℚ
  powerW : ℚ
  isCharging : Bool
  isOnline : Bool
  temperatureC : ℚ
  controlMode : Option BatteryControlMode
  forcePowerW : Option ℚ
deriving DecidableEq, Repr

/-- A battery device as the allocator sees it: its config and state
(the engine casts `device.config` / `device.state`). -/
structure Battery where
  config : BatteryConfig
  state : BatteryState
deriving DecidableEq, Repr

/-- The `EnergyFlows` record of `simulationEngine.ts`. -/
structure EnergyFlows where
  solarToLoad : ℚ
  solarToBattery : ℚ
  solarToGrid : ℚ
  batteryToLoad : ℚ
  gridToLoad : ℚ
  gridToBattery : ℚ
  netGridPower : ℚ
  batteryPower : ℚ
deriving DecidableEq, Repr

/-! ## Energy flow allocator (`SimulationEngine.calculateEnergyFlows`) -/

/-- Result of the battery-mode block (step 2 of `calculateEnergyFlows`):
the three battery flow fields it may set, its contribution to
`netGridPower`, and the value of `remainingSolar` afterwards. -/
structure BatteryStepOut where
  solarToBattery : ℚ
  gridToBattery : ℚ
  batteryPower : ℚ
  netGridPower : ℚ
  remainingSolar : ℚ
deriving DecidableEq, Repr

/-- Step 2 of `calculateEnergyFlows`: battery control-mode dispatch
(`force_charge` / `force_discharge` / `idle` / `auto` charging). -/
def batteryStep (remainingSolar : ℚ) (battery : Option Battery) : BatteryStepOut :=
  match battery with
  | none => ⟨0, 0, 0, 0, remainingSolar⟩
  | some b =>
    let cfg := b.config
    let st := b.state
    let controlMode := st.controlMode.getD .auto
    if st.isOnline then
      if controlMode = .force_charge ∧ jsTruthy st.forcePowerW then
        let maxChargePowerW := min (st.forcePowerW.getD 0) cfg.maxChargePowerW
        if st.batteryLevel < cfg.maxSoc then
          let availableCapacityKwh := cfg.capacityKwh * (cfg.maxSoc - st.batteryLevel)
          let maxChargeByCapacityW := availableCapacityKwh * 1000 * 4
          let actualChargePowerW := min maxChargePowerW maxChargeByCapacityW
          if actualChargePowerW ≤ remainingSolar then
            ⟨actualChargePowerW, 0, actualChargePowerW, 0,
              remainingSolar - actualChargePowerW⟩
          else
            ⟨remainingSolar, actualChargePowerW - remainingSolar, actualChargePowerW,
              actualChargePowerW - remainingSolar, 0⟩
        else ⟨0, 0, 0, 0, remainingSolar⟩
      else if controlMode = .force_discharge ∧ jsTruthy st.forcePowerW then
        let maxDischargePowerW := min |st.forcePowerW.getD 0| cfg.maxDischargePowerW
        if cfg.minSoc < st.batteryLevel then
          let availableEnergyKwh := cfg.capacityKwh * (st.batteryLevel - cfg.minSoc)
          let maxDischargeByCapacityW := availableEnergyKwh * 1000 * 4
          let actualDischargePowerW := min maxDischargePowerW maxDischargeByCapacityW
          ⟨0, 0, -actualDischargePowerW, -actualDischargePowerW, remainingSolar⟩
        else ⟨0, 0, 0, 0, remainingSolar⟩
      else if controlMode = .idle then
        ⟨0, 0, 0, 0, remainingSolar⟩
      else if controlMode = .auto ∧ remainingSolar > 0 ∧ st.batteryLevel < cfg.maxSoc then
        let maxChargePowerW := cfg.maxChargePowerW
        let availableCapacityKwh := cfg.capacityKwh * (cfg.maxSoc - st.batteryLevel)
        let maxChargeByCapacityW := availableCapacityKwh * 1000 * 4
        let actualChargePowerW := min remainingSolar (min maxChargePowerW maxChargeByCapacityW)
        ⟨actualChargePowerW, 0, actualChargePowerW, 0,
          remainingSolar - actualChargePowerW⟩
      else ⟨0, 0, 0, 0, remainingSolar⟩
    else ⟨0, 0, 0, 0, remainingSolar⟩

/-- Result of step 4 of `calculateEnergyFlows`: `batteryToLoad`,
the (possibly overwritten) `batteryPower`, `gridToLoad`, and the
contribution to `netGridPower`. -/
structure LoadStepOut where
  batteryToLoad : ℚ
  batteryPower : ℚ
  gridToLoad : ℚ
  netGridDelta : ℚ
deriving DecidableEq, Repr

/-- Step 4 of `calculateEnergyFlows`: cover remaining load from the
battery (auto mode only) and then from the grid. -/
def loadStep (remainingLoad batteryPowerIn : ℚ) (battery : Option Battery) : LoadStepOut :=
  if remainingLoad > 0 then
    let discharge : ℚ × ℚ :=
      match battery with
      | none => (0, batteryPowerIn)
      | some b =>
        let cfg := b.config
        let st := b.state
        let controlMode := st.controlMode.getD .auto
        if st.isOnline ∧ st.batteryLevel > cfg.minSoc ∧ controlMode = .auto then
          let maxDischargePowerW := cfg.maxDischargePowerW
          let availableEnergyKwh := cfg.capacityKwh * (st.batteryLevel - cfg.minSoc)
          let maxDischargeByCapacityW := availableEnergyKwh * 1000 * 4
          let actualDischargePowerW :=
            min remainingLoad (min maxDischargePowerW maxDischargeByCapacityW)
          (actualDischargePowerW, -actualDischargePowerW)
        else (0, batteryPowerIn)
    let remainingLoad1 := remainingLoad - discharge.1
    if remainingLoad1 > 0 then
      ⟨discharge.1, discharge.2, remainingLoad1, remainingLoad1⟩
    else
      ⟨discharge.1, discharge.2, 0, 0⟩
  else ⟨0, batteryPowerIn, 0, 0⟩

/-- `SimulationEngine.calculateEnergyFlows`: solar serves load first,
then the battery block, remaining solar is exported, remaining load is
served by battery (auto only) and grid. -/
def calculateEnergyFlows (solarPowerW householdLoadW : ℚ)
    (battery : Option Battery) : EnergyFlows :=
  let solarToLoad := min solarPowerW householdLoadW
  let remainingSolar0 := solarPowerW - solarToLoad
  let remainingLoad0 := householdLoadW - solarToLoad
  let s2 := batteryStep remainingSolar0 battery
  let solarToGrid := if s2.remainingSolar > 0 then s2.remainingSolar else 0
  let s4 := loadStep remainingLoad0 s2.batteryPower battery
  { solarToLoad := solarToLoad
    solarToBattery := s2.solarToBattery
    solarToGrid := solarToGrid
    batteryToLoad := s4.batteryToLoad
    gridToLoad := s4.gridToLoad
    gridToBattery := s2.gridToBattery
    netGridPower := s2.netGridPower - solarToGrid + s4.netGridDelta
    batteryPower := s4.batteryPower }

/-! ## Solar generation model (`WeatherService.calculateSolarPower`) -/

/-- `WeatherService.calculateSolarPower`: non-positive irradiance yields
0; otherwise power (kW) = kwPeak × (effectiveIrradiance/1000) ×
efficiency × temperatureFactor, converted to watts and clamped at 0. -/
def calculateSolarPower (irradianceWm2 kwPeak efficiency temperatureC cloudCover : ℚ) : ℚ :=
  if irradianceWm2 ≤ 0 then 0
  else
    let standardIrradiance : ℚ := 1000
    let temperatureCoeff : ℚ := -(4/1000)
    let temperatureFactor := 1 + temperatureCoeff * (temperatureC - 25)
    let cloudFactor := 1 - (cloudCover / 100) * (8/10)
    let effectiveIrradiance := irradianceWm2 * cloudFactor
    let powerKw := kwPeak * (effectiveIrradiance / standardIrradiance)
      * efficiency * temperatureFactor
    max 0 (powerKw * 1000)

/-! ## Device state updates (`SimulationEngine.updateDeviceStates`) -/

/-- `WeatherDataSchema`. -/
structure WeatherData where
  solarIrradianceWm2 : ℚ
  temperatureC : ℚ
  cloudCover : ℚ
  timestamp : String
deriving DecidableEq, Repr

/-- `SolarInverterConfigSchema` (fields read by the engine). -/
structure SolarInverterConfig where
  kwPeak : ℚ
  efficiency : ℚ
deriving DecidableEq, Repr

/-- `SolarInverterStateSchema`. -/
structure SolarInverterState where
  powerW : ℚ
  energyTodayKwh : ℚ
  totalEnergyKwh : ℚ
  isOnline : Bool
deriving DecidableEq, Repr

/-- `ApplianceConfigSchema`. -/
structure ApplianceConfig where
  name : String
  powerW : ℚ
  isControllable : Bool
deriving DecidableEq, Repr

/-- `ApplianceStateSchema`. -/
structure ApplianceState where
  isOn : Bool
  powerW : ℚ
  energyTodayKwh : ℚ
  isOnline : Bool
deriving DecidableEq, Repr

/-- `MeterStateSchema`. -/
structure MeterState where
  powerW : ℚ
  energyImportTodayKwh : ℚ
  energyExportTodayKwh : ℚ
  totalEnergyImportKwh : ℚ
  totalEnergyExportKwh : ℚ
  isOnline : Bool
deriving DecidableEq, Repr

/-- Hot-water storage config; the type declaration itself is not under
`src/`, the fields are exactly those the engine reads
(`tankCapacityL`, `heatingPowerW`, `standbyLossPerHourC`,
`minTemperatureC`, `maxTemperatureC`). -/
structure HotWaterStorageConfig where
  tankCapacityL : ℚ
  heatingPowerW : ℚ
  standbyLossPerHourC : ℚ
  minTemperatureC : ℚ
  maxTemperatureC : ℚ
deriving DecidableEq, Repr

/-- Hot-water storage state; fields as read/written by the engine. -/
structure HotWaterStorageState where
  isOnline : Bool
  isHotWaterBoostOn : Bool
  waterTemperatureC : ℚ
  targetTemperatureC : ℚ
  power : ℚ
deriving DecidableEq, Repr

/-- `SimulationEngine.updateDailyEnergy`: accumulate
`(powerW/1000) × (simulationIntervalMs/1000/3600)` kWh (no daily reset
is implemented). -/
def updateDailyEnergy (simulationIntervalMs currentDailyKwh powerW : ℚ) : ℚ :=
  currentDailyKwh + (powerW / 1000) * (simulationIntervalMs / 1000 / 3600)

/-- Solar inverter branch of `updateDeviceStates`: recompute power from
weather, accumulate today's energy via `updateDailyEnergy`, and add
`powerW/1000/120` to lifetime energy (the code's hardcoded
"30-second intervals" constant). -/
def updateSolarInverterState (simulationIntervalMs : ℚ) (config : SolarInverterConfig)
    (currentState : SolarInverterState) (weatherData : WeatherData) : SolarInverterState :=
  let powerW := calculateSolarPower weatherData.solarIrradianceWm2 config.kwPeak
    config.efficiency weatherData.temperatureC weatherData.cloudCover
  { currentState with
    powerW := jsRound powerW
    energyTodayKwh := updateDailyEnergy simulationIntervalMs currentState.energyTodayKwh powerW
    totalEnergyKwh := currentState.totalEnergyKwh + powerW / 1000 / 120 }

/-- Battery branch of `updateDeviceStates`: apply `batteryPower` over
the cycle to the state of charge, clamp to `[minSoc, maxSoc]`, round to
3 decimals; `rand` stands for the `Math.random()` draw of the
temperature jitter. -/
def updateBatteryState (simulationIntervalMs : ℚ) (config : BatteryConfig)
    (currentState : BatteryState) (batteryPower ambientTemperatureC rand : ℚ) : BatteryState :=
  let energyChangeKwh := (batteryPower / 1000) * (simulationIntervalMs / 1000 / 3600)
  let newBatteryLevel := currentState.batteryLevel
    + (energyChangeKwh / config.capacityKwh) * config.efficiency
  let clampedLevel := max config.minSoc (min config.maxSoc newBatteryLevel)
  { currentState with
    batteryLevel := jsRound (clampedLevel * 1000) / 1000
    powerW := jsRound batteryPower
    isCharging := decide (batteryPower > 0)
    temperatureC := ambientTemperatureC + rand * 4 - 2 }

/-- Meter branch of `updateDeviceStates`: split net grid power into
import/export counters, daily via `updateDailyEnergy` and lifetime via
the hardcoded `/1000/120`. -/
def updateMeterState (simulationIntervalMs : ℚ) (currentState : MeterState)
    (netGridPower : ℚ) : MeterState :=
  { currentState with
    powerW := jsRound netGridPower
    energyImportTodayKwh :=
      if netGridPower > 0 then
        updateDailyEnergy simulationIntervalMs currentState.energyImportTodayKwh netGridPower
      else currentState.energyImportTodayKwh
    energyExportTodayKwh :=
      if netGridPower < 0 then
        updateDailyEnergy simulationIntervalMs currentState.energyExportTodayKwh (-netGridPower)
      else currentState.energyExportTodayKwh
    totalEnergyImportKwh :=
      if netGridPower > 0 then
        currentState.totalEnergyImportKwh + netGridPower / 1000 / 120
      else currentState.totalEnergyImportKwh
    totalEnergyExportKwh :=
      if netGridPower < 0 then
        currentState.totalEnergyExportKwh + (-netGridPower) / 1000 / 120
      else currentState.totalEnergyExportKwh }

/-- Appliance branch of `updateDeviceStates`: non-controllable
appliances may toggle randomly (`randDraw` stands for `Math.random()`);
power follows the on/off state; today's energy accumulates while on. -/
def updateApplianceState (simulationIntervalMs : ℚ) (applianceConfig : ApplianceConfig)
    (currentState : ApplianceState) (randDraw : ℚ) : ApplianceState :=
  let newIsOn :=
    if applianceConfig.isControllable then currentState.isOn
    else if randDraw < 5/100 then !currentState.isOn else currentState.isOn
  let actualPowerW := if newIsOn then applianceConfig.powerW else 0
  { currentState with
    isOn := newIsOn
    powerW := actualPowerW
    energyTodayKwh :=
      if newIsOn then
        updateDailyEnergy simulationIntervalMs currentState.energyTodayKwh actualPowerW
      else currentState.energyTodayKwh }

/-- Hot-water storage branch of `updateDeviceStates`: heat while boost
is on and below target, standby loss otherwise; clamp the result to the
clamped target and to `[minTemperatureC, maxTemperatureC]`. -/
def updateHotWaterState (simulationIntervalMs : ℚ) (config : HotWaterStorageConfig)
    (currentState : HotWaterStorageState) : HotWaterStorageState :=
  let intervalSeconds := simulationIntervalMs / 1000
  let waterMassKg := config.tankCapacityL
  let specificHeatCapacity : ℚ := 4186
  let step : ℚ × ℚ :=
    if currentState.isHotWaterBoostOn then
      let remainingDelta := currentState.targetTemperatureC - currentState.waterTemperatureC
      if remainingDelta > 0 then
        let power := config.heatingPowerW
        let temperatureRise := power * intervalSeconds / (waterMassKg * specificHeatCapacity)
        (power, currentState.waterTemperatureC + temperatureRise)
      else (0, currentState.waterTemperatureC)
    else
      let lossPerSecond := config.standbyLossPerHourC / 3600
      (0, currentState.waterTemperatureC - lossPerSecond * intervalSeconds)
  let clampedTarget := min config.maxTemperatureC
    (max config.minTemperatureC currentState.targetTemperatureC)
  let t1 := min clampedTarget step.2
  let t2 := max config.minTemperatureC (min config.maxTemperatureC t1)
  { currentState with
    power := step.1
    waterTemperatureC := t2
    targetTemperatureC := clampedTarget }

/-! ## Weather batch and simulation cycle
(`WeatherService.getCurrentWeatherData`, `getWeatherDataBatch`,
`SimulationEngine.runSimulationCycle`) -/

/-- `LocationSchema`. -/
structure Location where
  lat : ℚ
  lng : ℚ
deriving DecidableEq, Repr

/-- `DwellingSchema` (fields the cycle reads). -/
structure Dwelling where
  dwellingId : String
  location : Location
deriving DecidableEq, Repr

/-- A published simulation update; for the cycle model only the
dwelling id and the weather it was simulated under matter. -/
structure SimulationUpdate where
  dwellingId : String
  weatherData : WeatherData
deriving DecidableEq, Repr

/-- `WeatherService.getCurrentWeatherData`: `api` is the outcome of the
axios call for the location (an exception on the left); any failure is
caught and the fallback weather is returned, never an error. -/
def getCurrentWeatherData (api : Except String WeatherData)
    (fallback : WeatherData) : WeatherData :=
  match api with
  | .ok w => w
  | .error _ => fallback

/-- `WeatherService.getWeatherDataBatch`: every requested dwelling is
inserted into the result map, with fetched or fallback weather.  The
source fetches in concurrent batches of three, which only orders the
fetches; the resulting map is modelled as an association list in
request order. -/
def getWeatherDataBatch (locations : List Dwelling)
    (api : Location → Except String WeatherData)
    (fallback : WeatherData) : List (String × WeatherData) :=
  locations.map fun d => (d.dwellingId, getCurrentWeatherData (api d.location) fallback)

/-- The per-dwelling loop of `SimulationEngine.runSimulationCycle`: a
dwelling with no weather entry is skipped; otherwise `simulate` (the
embedding of `simulateDwelling`, `none` standing for a null update or a
thrown error, both of which push nothing) may contribute an update.
The collected updates are what `broadcastUpdates` publishes. -/
def runSimulationCycleUpdates (dwellings : List Dwelling)
    (api : Location → Except String WeatherData) (fallback : WeatherData)
    (simulate : Dwelling → WeatherData → Option SimulationUpdate) : List SimulationUpdate :=
  let weatherDataMap := getWeatherDataBatch dwellings api fallback
  dwellings.filterMap fun d =>
    match List.lookup d.dwellingId weatherDataMap with
    | none => none
    | some w => simulate d w

/-! ## Helper lemmas -/

/-- In `idle` mode the battery block sets nothing and keeps remaining solar. -/
theorem batteryStep_idle (rem : ℚ) (b : Battery)
    (h : b.state.controlMode.getD .auto = .idle) :
    batteryStep rem (some b) = ⟨0, 0, 0, 0, rem⟩ := by
  cases hon : b.state.isOnline <;> simp [batteryStep, h, hon]

/-- In a force mode with falsy `forcePowerW` no battery branch applies. -/
theorem batteryStep_force_falsy (rem : ℚ) (b : Battery)
    (h : b.state.controlMode.getD .auto = .force_charge ∨
      b.state.controlMode.getD .auto = .force_discharge)
    (hf : jsTruthy b.state.forcePowerW = false) :
    batteryStep rem (some b) = ⟨0, 0, 0, 0, rem⟩ := by
  rcases h with h | h <;> cases hon : b.state.isOnline <;> simp [batteryStep, h, hf, hon]

/-- Unless the control mode is `auto`, step 4 leaves `batteryToLoad`
at 0 and passes `batteryPower` through. -/
theorem loadStep_not_auto (rl bp : ℚ) (b : Battery)
    (h : b.state.controlMode.getD .auto ≠ .auto) :
    (loadStep rl bp (some b)).batteryToLoad = 0 ∧
    (loadStep rl bp (some b)).batteryPower = bp := by
  unfold loadStep
  split_ifs with h1
  · simp only [h, and_false, if_false]
    split_ifs <;> simp
  · simp

/-- With no remaining load, step 4 does nothing. -/
theorem loadStep_nonpos (rl bp : ℚ) (battery : Option Battery) (h : ¬ rl > 0) :
    loadStep rl bp battery = ⟨0, bp, 0, 0⟩ := by
  simp [loadStep, h]

/-! ## Claims -/

/-- **C6**: for every allocator input with a battery whose control mode
is `idle`, the returned `EnergyFlows` have `batteryPower = 0` and no
battery charge or discharge flow (`solarToBattery`, `gridToBattery`,
`batteryToLoad` all 0), for all magnitudes of solar power and load. -/
theorem idle_mode_battery_power_zero (solarPowerW householdLoadW : ℚ) (b : Battery)
    (hmode : b.state.controlMode.getD .auto = .idle) :
    (calculateEnergyFlows solarPowerW householdLoadW (some b)).batteryPower = 0 ∧
    (calculateEnergyFlows solarPowerW householdLoadW (some b)).solarToBattery = 0 ∧
    (calculateEnergyFlows solarPowerW householdLoadW (some b)).gridToBattery = 0 ∧
    (calculateEnergyFlows solarPowerW householdLoadW (some b)).batteryToLoad = 0 := by
  have hs2 := batteryStep_idle (solarPowerW - min solarPowerW householdLoadW) b hmode
  have hls := loadStep_not_auto
    (householdLoadW - min solarPowerW householdLoadW)
    ((batteryStep (solarPowerW - min solarPowerW householdLoadW) (some b)).batteryPower)
    b (by rw [hmode]; intro hcon; cases hcon)
  simp only [calculateEnergyFlows, hs2] at hls ⊢
  exact ⟨hls.2, trivial, trivial, hls.1⟩

/-- Witness for C6 at a concrete idle battery. -/
theorem idle_mode_battery_power_zero_witness :
    (calculateEnergyFlows 3000 1200 (some
      ⟨⟨10, 5000, 5000, 1, 1/10, 1⟩,
       ⟨1/2, 0, false, true, 20, some .idle, some 2000⟩⟩)).batteryPower = 0 :=
  (idle_mode_battery_power_zero 3000 1200
    ⟨⟨10, 5000, 5000, 1, 1/10, 1⟩,
     ⟨1/2, 0, false, true, 20, some .idle, some 2000⟩⟩ rfl).1

/-- **C10**: with an online battery in `force_charge` (or
`force_discharge`) mode whose `forcePowerW` is absent or 0 (falsy), no
battery branch applies: `batteryPower`, `solarToBattery`,
`gridToBattery` and `batteryToLoad` are all 0 for that cycle. -/
theorem force_mode_falsy_power_noop (solarPowerW householdLoadW : ℚ) (b : Battery)
    (honline : b.state.isOnline = true)
    (hmode : b.state.controlMode.getD .auto = .force_charge ∨
      b.state.controlMode.getD .auto = .force_discharge)
    (hfp : b.state.forcePowerW = none ∨ b.state.forcePowerW = some 0) :
    (calculateEnergyFlows solarPowerW householdLoadW (some b)).batteryPower = 0 ∧
    (calculateEnergyFlows solarPowerW householdLoadW (some b)).solarToBattery = 0 ∧
    (calculateEnergyFlows solarPowerW householdLoadW (some b)).gridToBattery = 0 ∧
    (calculateEnergyFlows solarPowerW householdLoadW (some b)).batteryToLoad = 0 := by
  have hfalsy : jsTruthy b.state.forcePowerW = false := by
    rcases hfp with hfp | hfp <;> simp [jsTruthy, hfp]
  have hs2 := batteryStep_force_falsy (solarPowerW - min solarPowerW householdLoadW) b hmode hfalsy
  have hnotauto : b.state.controlMode.getD .auto ≠ .auto := by
    rcases hmode with h | h <;> rw [h] <;> intro hcon <;> cases hcon
  have hls := loadStep_not_auto
    (householdLoadW - min solarPowerW householdLoadW)
    ((batteryStep (solarPowerW - min solarPowerW householdLoadW) (some b)).batteryPower)
    b hnotauto
  simp only [calculateEnergyFlows, hs2] at hls ⊢
  exact ⟨hls.2, trivial, trivial, hls.1⟩

/-- Witness for C10: online battery in `force_charge` with
`forcePowerW = 0`. -/
theorem force_mode_falsy_power_noop_witness :
    (calculateEnergyFlows 3000 1200 (some
      ⟨⟨10, 5000, 5000, 1, 1/10, 1⟩,
       ⟨1/2, 0, false, true, 20, some .force_charge, some 0⟩⟩)).batteryPower = 0 :=
  (force_mode_falsy_power_noop 3000 1200
    ⟨⟨10, 5000, 5000, 1, 1/10, 1⟩,
     ⟨1/2, 0, false, true, 20, some .force_charge, some 0⟩⟩
    rfl (Or.inl rfl) (Or.inr rfl)).1

/-- In `auto` mode the battery block balances solar: charge plus what
is left equals the incoming remaining solar, no grid flows arise, and
remaining solar stays non-negative. -/
theorem batteryStep_auto (rem : ℚ) (b : Battery)
    (h : b.state.controlMode.getD .auto = .auto) (hrem : 0 ≤ rem) :
    (batteryStep rem (some b)).solarToBattery + (batteryStep rem (some b)).remainingSolar = rem ∧
    (batteryStep rem (some b)).gridToBattery = 0 ∧
    (batteryStep rem (some b)).netGridPower = 0 ∧
    0 ≤ (batteryStep rem (some b)).remainingSolar := by
  cases hon : b.state.isOnline
  · simp [batteryStep, hon, hrem]
  · by_cases hcharge : rem > 0 ∧ b.state.batteryLevel < b.config.maxSoc
    · simp [batteryStep, hon, h, hcharge]
    · simp [batteryStep, hon, h, hcharge, hrem]

/-- **C1**: for every allocator input with a battery in `auto` mode and
total solar ≥ total load, the flows satisfy
`solarToGrid + solarToBattery + solarToLoad = solarPowerW` (exactly,
hence within any floating tolerance) and `gridToLoad = 0`. -/
theorem auto_mode_solar_balance (solarPowerW householdLoadW : ℚ) (b : Battery)
    (hmode : b.state.controlMode.getD .auto = .auto)
    (hload : householdLoadW ≤ solarPowerW) :
    (calculateEnergyFlows solarPowerW householdLoadW (some b)).solarToGrid
      + (calculateEnergyFlows solarPowerW householdLoadW (some b)).solarToBattery
      + (calculateEnergyFlows solarPowerW householdLoadW (some b)).solarToLoad
      = solarPowerW ∧
    (calculateEnergyFlows solarPowerW householdLoadW (some b)).gridToLoad = 0 := by
  have hminl : min solarPowerW householdLoadW = householdLoadW := min_eq_right hload
  have hrem : (0:ℚ) ≤ solarPowerW - min solarPowerW householdLoadW := by
    rw [hminl]; linarith
  obtain ⟨hsum, _, _, hnn⟩ := batteryStep_auto (solarPowerW - min solarPowerW householdLoadW) b hmode hrem
  have hload0 : ¬ householdLoadW - min solarPowerW householdLoadW > 0 := by
    rw [hminl]; linarith
  have hls := loadStep_nonpos (householdLoadW - min solarPowerW householdLoadW)
    ((batteryStep (solarPowerW - min solarPowerW householdLoadW) (some b)).batteryPower)
    (some b) hload0
  simp only [calculateEnergyFlows, hls]
  constructor
  · split_ifs with hpos
    · rw [hminl] at hsum ⊢; linarith
    · have hz : (batteryStep (solarPowerW - min solarPowerW householdLoadW)
          (some b)).remainingSolar = 0 := le_antisymm (by linarith) hnn
      rw [hz] at hsum
      rw [hminl] at hsum ⊢
      linarith
  · trivial

/-- Witness for C1: solar 5000 W, load 1000 W, auto battery at SoC 0.5. -/
theorem auto_mode_solar_balance_witness :
    (calculateEnergyFlows 5000 1000 (some
      ⟨⟨(27:ℚ)/2, 5000, 5000, 1, 1/10, 1⟩,
       ⟨1/2, 0, false, true, 20, some .auto, none⟩⟩)).solarToGrid
      + (calculateEnergyFlows 5000 1000 (some
      ⟨⟨(27:ℚ)/2, 5000, 5000, 1, 1/10, 1⟩,
       ⟨1/2, 0, false, true, 20, some .auto, none⟩⟩)).solarToBattery
      + (calculateEnergyFlows 5000 1000 (some
      ⟨⟨(27:ℚ)/2, 5000, 5000, 1, 1/10, 1⟩,
       ⟨1/2, 0, false, true, 20, some .auto, none⟩⟩)).solarToLoad = 5000 :=
  (auto_mode_solar_balance 5000 1000
    ⟨⟨(27:ℚ)/2, 5000, 5000, 1, 1/10, 1⟩,
     ⟨1/2, 0, false, true, 20, some .auto, none⟩⟩ rfl (by norm_num)).1

/-- **C7 counterexample**: a `force_charge` battery whose `forcePowerW`
(1000 W) exceeds the solar remaining after load (500 W), but whose
`maxChargePowerW` is only 100 W.  The charge target (100 W) is covered
by solar alone, the surplus 400 W is exported, so
`netGridPower = -400 ≠ 0 = gridToBattery` and
`solarToBattery = 100 ≠ 500 = originalRemainingSolar`: the claim as
stated is false. -/
theorem force_charge_roundtrip_counterexample :
    ¬ ((calculateEnergyFlows 1000 500 (some
        ⟨⟨10, 100, 5000, 1, 1/10, 1⟩,
         ⟨1/2, 0, false, true, 20, some .force_charge, some 1000⟩⟩)).netGridPower
        = (calculateEnergyFlows 1000 500 (some
        ⟨⟨10, 100, 5000, 1, 1/10, 1⟩,
         ⟨1/2, 0, false, true, 20, some .force_charge, some 1000⟩⟩)).gridToBattery ∧
      (calculateEnergyFlows 1000 500 (some
        ⟨⟨10, 100, 5000, 1, 1/10, 1⟩,
         ⟨1/2, 0, false, true, 20, some .force_charge, some 1000⟩⟩)).solarToBattery
        = 1000 - 500) := by
  norm_num [calculateEnergyFlows, batteryStep, loadStep, jsTruthy, min_def]

/-- **C7 (amended)**: for an online `force_charge` battery below
`maxSoc` with truthy `forcePowerW`, if the *effective* charge target
`min (min forcePowerW maxChargePowerW) (headroom kWh × 1000 × 4)`
exceeds the solar remaining after load and solar covers the load, then
`netGridPower = gridToBattery` and `solarToBattery` equals the original
remaining solar. -/
theorem force_charge_roundtrip (solarPowerW householdLoadW : ℚ) (b : Battery)
    (honline : b.state.isOnline = true)
    (hmode : b.state.controlMode.getD .auto = .force_charge)
    (htruthy : jsTruthy b.state.forcePowerW = true)
    (hlevel : b.state.batteryLevel < b.config.maxSoc)
    (hload : householdLoadW ≤ solarPowerW)
    (hexceed : solarPowerW - householdLoadW <
      min (min (b.state.forcePowerW.getD 0) b.config.maxChargePowerW)
        (b.config.capacityKwh * (b.config.maxSoc - b.state.batteryLevel) * 1000 * 4)) :
    (calculateEnergyFlows solarPowerW householdLoadW (some b)).netGridPower
      = (calculateEnergyFlows solarPowerW householdLoadW (some b)).gridToBattery ∧
    (calculateEnergyFlows solarPowerW householdLoadW (some b)).solarToBattery
      = solarPowerW - householdLoadW := by
  have hminl : min solarPowerW householdLoadW = householdLoadW := min_eq_right hload
  have hnotle : ¬ min (min (b.state.forcePowerW.getD 0) b.config.maxChargePowerW)
      (b.config.capacityKwh * (b.config.maxSoc - b.state.batteryLevel) * 1000 * 4)
      ≤ solarPowerW - min solarPowerW householdLoadW := by
    rw [hminl]; linarith
  have hs2 : batteryStep (solarPowerW - min solarPowerW householdLoadW) (some b)
      = ⟨solarPowerW - min solarPowerW householdLoadW,
         min (min (b.state.forcePowerW.getD 0) b.config.maxChargePowerW)
           (b.config.capacityKwh * (b.config.maxSoc - b.state.batteryLevel) * 1000 * 4)
           - (solarPowerW - min solarPowerW householdLoadW),
         min (min (b.state.forcePowerW.getD 0) b.config.maxChargePowerW)
           (b.config.capacityKwh * (b.config.maxSoc - b.state.batteryLevel) * 1000 * 4),
         min (min (b.state.forcePowerW.getD 0) b.config.maxChargePowerW)
           (b.config.capacityKwh * (b.config.maxSoc - b.state.batteryLevel) * 1000 * 4)
           - (solarPowerW - min solarPowerW householdLoadW),
         0⟩ := by
    simp [batteryStep, honline, hmode, htruthy, hlevel, hnotle]
  have hload0 : ¬ householdLoadW - min solarPowerW householdLoadW > 0 := by
    rw [hminl]; linarith
  have hls := loadStep_nonpos (householdLoadW - min solarPowerW householdLoadW)
    ((batteryStep (solarPowerW - min solarPowerW householdLoadW) (some b)).batteryPower)
    (some b) hload0
  simp only [calculateEnergyFlows, hls]
  simp only [hs2]
  norm_num [hminl]

/-- Witness for C7 (amended): force target 10000 W against 500 W of
remaining solar. -/
theorem force_charge_roundtrip_witness :
    (calculateEnergyFlows 1000 500 (some
      ⟨⟨10, 5000, 5000, 1, 1/10, 1⟩,
       ⟨1/2, 0, false, true, 20, some .force_charge, some 10000⟩⟩)).netGridPower
      = (calculateEnergyFlows 1000 500 (some
      ⟨⟨10, 5000, 5000, 1, 1/10, 1⟩,
       ⟨1/2, 0, false, true, 20, some .force_charge, some 10000⟩⟩)).gridToBattery :=
  (force_charge_roundtrip 1000 500
    ⟨⟨10, 5000, 5000, 1, 1/10, 1⟩,
     ⟨1/2, 0, false, true, 20, some .force_charge, some 10000⟩⟩
    rfl rfl (by decide) (by norm_num) (by norm_num) (by norm_num)).1

/-- The solar generation model never returns a negative power. -/
theorem calculateSolarPower_nonneg (irr kwPeak eff t cc : ℚ) :
    0 ≤ calculateSolarPower irr kwPeak eff t cc := by
  unfold calculateSolarPower
  split_ifs
  · exact le_refl 0
  · exact le_max_left 0 _

/-- **C8**: for non-negative peak capacity and efficiency (temperature
and cloud cover fixed), `calculateSolarPower` is non-negative for all
non-negative irradiance, monotonically non-decreasing in irradiance,
and returns 0 at irradiance 0. -/
theorem solar_power_nonneg_monotone (kwPeak eff t cc : ℚ)
    (hk : 0 ≤ kwPeak) (he : 0 ≤ eff) :
    (∀ irr : ℚ, 0 ≤ irr → 0 ≤ calculateSolarPower irr kwPeak eff t cc) ∧
    (∀ irr1 irr2 : ℚ, 0 ≤ irr1 → irr1 ≤ irr2 →
      calculateSolarPower irr1 kwPeak eff t cc ≤ calculateSolarPower irr2 kwPeak eff t cc) ∧
    calculateSolarPower 0 kwPeak eff t cc = 0 := by
  refine ⟨fun irr _ => calculateSolarPower_nonneg irr kwPeak eff t cc, ?_, by
    unfold calculateSolarPower; norm_num⟩
  intro irr1 irr2 h1 h12
  by_cases hz1 : irr1 ≤ 0
  · have : calculateSolarPower irr1 kwPeak eff t cc = 0 := by
      unfold calculateSolarPower; rw [if_pos hz1]
    rw [this]
    exact calculateSolarPower_nonneg irr2 kwPeak eff t cc
  · have hz2 : ¬ irr2 ≤ 0 := by push_neg at hz1 ⊢; linarith
    unfold calculateSolarPower
    rw [if_neg hz1, if_neg hz2]
    rcases le_or_lt 0 (kwPeak * ((1 - cc / 100 * (8/10)) / 1000) * eff
        * (1 + -(4/1000) * (t - 25)) * 1000) with hc | hc
    · apply max_le_max (le_refl 0)
      calc kwPeak * (irr1 * (1 - cc / 100 * (8/10)) / 1000) * eff
            * (1 + -(4/1000) * (t - 25)) * 1000
          = (kwPeak * ((1 - cc / 100 * (8/10)) / 1000) * eff
            * (1 + -(4/1000) * (t - 25)) * 1000) * irr1 := by ring
        _ ≤ (kwPeak * ((1 - cc / 100 * (8/10)) / 1000) * eff
            * (1 + -(4/1000) * (t - 25)) * 1000) * irr2 := by
            exact mul_le_mul_of_nonneg_left h12 hc
        _ = kwPeak * (irr2 * (1 - cc / 100 * (8/10)) / 1000) * eff
            * (1 + -(4/1000) * (t - 25)) * 1000 := by ring
    · have h1' : kwPeak * (irr1 * (1 - cc / 100 * (8/10)) / 1000) * eff
          * (1 + -(4/1000) * (t - 25)) * 1000 ≤ 0 := by nlinarith
      have h2' : kwPeak * (irr2 * (1 - cc / 100 * (8/10)) / 1000) * eff
          * (1 + -(4/1000) * (t - 25)) * 1000 ≤ 0 := by nlinarith
      rw [max_eq_left h1', max_eq_left h2']

/-- Witness for C8: 500 ≤ 800 W/m² at 1 kWp, efficiency 1. -/
theorem solar_power_nonneg_monotone_witness :
    0 ≤ calculateSolarPower 500 1 1 25 0 ∧
    calculateSolarPower 500 1 1 25 0 ≤ calculateSolarPower 800 1 1 25 0 ∧
    calculateSolarPower 0 1 1 25 0 = 0 :=
  ⟨(solar_power_nonneg_monotone 1 1 25 0 (by norm_num) (by norm_num)).1 500 (by norm_num),
   (solar_power_nonneg_monotone 1 1 25 0 (by norm_num) (by norm_num)).2.1 500 800
     (by norm_num) (by norm_num),
   (solar_power_nonneg_monotone 1 1 25 0 (by norm_num) (by norm_num)).2.2⟩

/-- **C4** (code bug evaluation): with the engine's default 60-second
cycle and a solar inverter producing exactly 1000 W (irradiance 1000
W/m², 1 kWp, efficiency 1, 25 °C, no clouds), one cycle adds
1/60 kWh to `energyTodayKwh` (power/1000 × cycleSeconds/3600) but only
1/120 kWh to `totalEnergyKwh` (the hardcoded "30-second" constant
`powerW/1000/120`), so the two increments differ. -/
theorem solar_lifetime_increment_mismatch :
    (updateSolarInverterState 60000 ⟨1, 1⟩ ⟨0, 0, 0, true⟩
      ⟨1000, 25, 0, "t"⟩).energyTodayKwh = 1/60 ∧
    (updateSolarInverterState 60000 ⟨1, 1⟩ ⟨0, 0, 0, true⟩
      ⟨1000, 25, 0, "t"⟩).totalEnergyKwh = 1/120 ∧
    ((1:ℚ)/60 ≠ 1/120) := by
  refine ⟨?_, ?_, by norm_num⟩ <;>
    norm_num [updateSolarInverterState, updateDailyEnergy, calculateSolarPower]

/-- A daily-energy update with non-negative power and a non-negative
cycle interval never decreases the counter. -/
theorem updateDailyEnergy_le (simMs cur powerW : ℚ) (hms : 0 ≤ simMs) (hp : 0 ≤ powerW) :
    cur ≤ updateDailyEnergy simMs cur powerW := by
  unfold updateDailyEnergy
  have : 0 ≤ (powerW / 1000) * (simMs / 1000 / 3600) := by positivity
  linarith

/-- **C9**: in a single cycle update, no energy counter decreases:
solar inverter today/lifetime energy, meter import/export today and
lifetime counters (for any net grid power), and appliance today energy
(for the schema-validated non-negative configured power). -/
theorem energy_counters_monotone (simMs : ℚ) (hms : 0 ≤ simMs) :
    (∀ (cfg : SolarInverterConfig) (st : SolarInverterState) (w : WeatherData),
      st.energyTodayKwh ≤ (updateSolarInverterState simMs cfg st w).energyTodayKwh ∧
      st.totalEnergyKwh ≤ (updateSolarInverterState simMs cfg st w).totalEnergyKwh) ∧
    (∀ (st : MeterState) (net : ℚ),
      st.energyImportTodayKwh ≤ (updateMeterState simMs st net).energyImportTodayKwh ∧
      st.energyExportTodayKwh ≤ (updateMeterState simMs st net).energyExportTodayKwh ∧
      st.totalEnergyImportKwh ≤ (updateMeterState simMs st net).totalEnergyImportKwh ∧
      st.totalEnergyExportKwh ≤ (updateMeterState simMs st net).totalEnergyExportKwh) ∧
    (∀ (acfg : ApplianceConfig) (ast : ApplianceState) (r : ℚ), 0 ≤ acfg.powerW →
      ast.energyTodayKwh ≤ (updateApplianceState simMs acfg ast r).energyTodayKwh) := by
  refine ⟨fun cfg st w => ?_, fun st net => ?_, fun acfg ast r hp => ?_⟩
  · have hp := calculateSolarPower_nonneg w.solarIrradianceWm2 cfg.kwPeak
      cfg.efficiency w.temperatureC w.cloudCover
    constructor
    · exact updateDailyEnergy_le simMs st.energyTodayKwh _ hms hp
    · simp only [updateSolarInverterState]
      have : 0 ≤ calculateSolarPower w.solarIrradianceWm2 cfg.kwPeak
          cfg.efficiency w.temperatureC w.cloudCover / 1000 / 120 := by positivity
      linarith
  · refine ⟨?_, ?_, ?_, ?_⟩ <;> simp only [updateMeterState] <;> split_ifs with h
    · exact updateDailyEnergy_le simMs _ net hms (le_of_lt h)
    · exact le_refl _
    · exact updateDailyEnergy_le simMs _ (-net) hms (by linarith)
    · exact le_refl _
    · have : 0 ≤ net / 1000 / 120 := by positivity
      linarith
    · exact le_refl _
    · have : 0 ≤ (-net) / 1000 / 120 := by
        have : 0 ≤ -net := by linarith
        positivity
      linarith
    · exact le_refl _
  · simp only [updateApplianceState]
    split_ifs <;>
      first
        | exact le_refl _
        | exact updateDailyEnergy_le simMs _ _ hms hp

/-- Witness for C9 at the default 60 s interval with concrete devices. -/
theorem energy_counters_monotone_witness :
    (5:ℚ) ≤ (updateSolarInverterState 60000 ⟨1, 1⟩ ⟨0, 5, 7, true⟩
      ⟨1000, 25, 0, "t"⟩).energyTodayKwh ∧
    (3:ℚ) ≤ (updateMeterState 60000 ⟨0, 3, 4, 5, 6, true⟩ 900).energyImportTodayKwh ∧
    (2:ℚ) ≤ (updateApplianceState 60000 ⟨"tv", 100, true⟩ ⟨true, 100, 2, true⟩ (1/2)).energyTodayKwh :=
  ⟨((energy_counters_monotone 60000 (by norm_num)).1 ⟨1, 1⟩ ⟨0, 5, 7, true⟩ ⟨1000, 25, 0, "t"⟩).1,
   ((energy_counters_monotone 60000 (by norm_num)).2.1 ⟨0, 3, 4, 5, 6, true⟩ 900).1,
   (energy_counters_monotone 60000 (by norm_num)).2.2 ⟨"tv", 100, true⟩ ⟨true, 100, 2, true⟩ (1/2)
     (by norm_num)⟩

/-- **C2 counterexample**: a schema-valid config with
`minSoc = 0.1003`, `maxSoc = 0.1004` and a battery at level 0.1004 with
`batteryPower = 0`.  The clamped level 0.1004 is rounded to three
decimals, storing 0.1 < `minSoc`: the stored SoC leaves
`[minSoc, maxSoc]`, so the claim as stated is false. -/
theorem battery_soc_range_counterexample :
    ¬ ((1003:ℚ)/10000 ≤ (updateBatteryState 60000
        ⟨10, 5000, 5000, 1, 1003/10000, 1004/10000⟩
        ⟨1004/10000, 0, false, true, 20, some .auto, none⟩ 0 20 (1/2)).batteryLevel ∧
      (updateBatteryState 60000
        ⟨10, 5000, 5000, 1, 1003/10000, 1004/10000⟩
        ⟨1004/10000, 0, false, true, 20, some .auto, none⟩ 0 20 (1/2)).batteryLevel
        ≤ (1004:ℚ)/10000) := by
  norm_num [updateBatteryState, jsRound]

/-- **C2 (amended)**: the battery level is clamped to
`[minSoc, maxSoc]` *before* rounding to three decimals; the stored
level stays within `[minSoc, maxSoc]` for every `batteryPower` and
prior level whenever `minSoc ≤ maxSoc` and both bounds are integer
multiples of 0.001 (otherwise rounding can leave the range by less
than 0.0005, as the counterexample shows). -/
theorem battery_soc_stays_in_range (simMs : ℚ) (cfg : BatteryConfig) (st : BatteryState)
    (batteryPower ambient rand : ℚ) (hle : cfg.minSoc ≤ cfg.maxSoc) (a b : ℤ)
    (ha : cfg.minSoc = (a : ℚ) / 1000) (hb : cfg.maxSoc = (b : ℚ) / 1000) :
    cfg.minSoc ≤ (updateBatteryState simMs cfg st batteryPower ambient rand).batteryLevel ∧
    (updateBatteryState simMs cfg st batteryPower ambient rand).batteryLevel ≤ cfg.maxSoc := by
  simp only [updateBatteryState, jsRound]
  set x := st.batteryLevel
    + (batteryPower / 1000 * (simMs / 1000 / 3600) / cfg.capacityKwh) * cfg.efficiency with hx
  set c := max cfg.minSoc (min cfg.maxSoc x) with hc
  have hcl : cfg.minSoc ≤ c := le_max_left _ _
  have hcu : c ≤ cfg.maxSoc := max_le hle (min_le_left _ _)
  have hfl : a ≤ ⌊c * 1000 + 1/2⌋ := by
    apply Int.le_floor.mpr
    rw [ha] at hcl
    linarith
  have hfu : ⌊c * 1000 + 1/2⌋ ≤ b := by
    have h1 : c * 1000 + 1/2 ≤ (b : ℚ) + 1/2 := by
      rw [hb] at hcu; linarith
    have h2 : ⌊c * 1000 + 1/2⌋ ≤ ⌊(b : ℚ) + 1/2⌋ := Int.floor_le_floor h1
    have h3 : ⌊(b : ℚ) + 1/2⌋ = b + ⌊(1/2 : ℚ)⌋ := Int.floor_int_add b (1/2)
    have h4 : ⌊(1/2 : ℚ)⌋ = 0 := by norm_num
    omega
  have hfl' : (a : ℚ) ≤ (⌊c * 1000 + 1/2⌋ : ℚ) := Int.cast_le.mpr hfl
  have hfu' : ((⌊c * 1000 + 1/2⌋ : ℤ) : ℚ) ≤ (b : ℚ) := Int.cast_le.mpr hfu
  rw [ha, hb]
  constructor <;> linarith

/-- Witness for C2 (amended): standard bounds `minSoc = 0.1`,
`maxSoc = 1` (both multiples of 0.001). -/
theorem battery_soc_stays_in_range_witness :
    (1:ℚ)/10 ≤ (updateBatteryState 60000 ⟨10, 5000, 5000, 1, 1/10, 1⟩
      ⟨1/2, 0, false, true, 20, some .auto, none⟩ 4000 20 (1/2)).batteryLevel ∧
    (updateBatteryState 60000 ⟨10, 5000, 5000, 1, 1/10, 1⟩
      ⟨1/2, 0, false, true, 20, some .auto, none⟩ 4000 20 (1/2)).batteryLevel ≤ 1 :=
  battery_soc_stays_in_range 60000 ⟨10, 5000, 5000, 1, 1/10, 1⟩
    ⟨1/2, 0, false, true, 20, some .auto, none⟩ 4000 20 (1/2)
    (by norm_num) 100 1000 (by norm_num) (by norm_num)

/-- **C5**: one hot-water cycle.  With boost on and current strictly
below target (and the current temperature at or above the configured
minimum, sensible bounds, non-negative heating power), the water
temperature rises by exactly
`ΔT = heatingPowerW × cycleSeconds / (tankCapacityL × 4186)` and is
clamped not to exceed the clamped target; with boost off it decreases
by `(standbyLossPerHourC/3600) × cycleSeconds`, clamped to the clamped
target and to `[minTemperatureC, maxTemperatureC]`. -/
theorem hot_water_cycle_update (simMs : ℚ) (cfg : HotWaterStorageConfig)
    (st : HotWaterStorageState) :
    (st.isHotWaterBoostOn = true → st.waterTemperatureC < st.targetTemperatureC →
      cfg.minTemperatureC ≤ cfg.maxTemperatureC →
      cfg.minTemperatureC ≤ st.waterTemperatureC →
      0 ≤ cfg.heatingPowerW → 0 < cfg.tankCapacityL → 0 ≤ simMs →
      (updateHotWaterState simMs cfg st).waterTemperatureC
        = min (min cfg.maxTemperatureC (max cfg.minTemperatureC st.targetTemperatureC))
            (st.waterTemperatureC
              + cfg.heatingPowerW * (simMs / 1000) / (cfg.tankCapacityL * 4186))) ∧
    (st.isHotWaterBoostOn = false →
      (updateHotWaterState simMs cfg st).waterTemperatureC
        = max cfg.minTemperatureC
            (min (min cfg.maxTemperatureC (max cfg.minTemperatureC st.targetTemperatureC))
              (st.waterTemperatureC - cfg.standbyLossPerHourC / 3600 * (simMs / 1000)))) := by
  constructor
  · intro hboost hdelta hminmax hmincur hheat htank hms
    have hdelta' : st.targetTemperatureC - st.waterTemperatureC > 0 := by linarith
    simp only [updateHotWaterState, hboost, hdelta', if_pos, if_true]
    set tgt := min cfg.maxTemperatureC (max cfg.minTemperatureC st.targetTemperatureC) with htgt
    set rise := cfg.heatingPowerW * (simMs / 1000) / (cfg.tankCapacityL * 4186) with hrise
    have hrise0 : 0 ≤ rise := by
      rw [hrise]
      positivity
    have h1 : min tgt (st.waterTemperatureC + rise) ≤ cfg.maxTemperatureC :=
      le_trans (min_le_left _ _) (min_le_left _ _)
    have h2 : cfg.minTemperatureC ≤ min tgt (st.waterTemperatureC + rise) := by
      apply le_min
      · exact le_trans (le_min hminmax (le_max_left _ _)) (le_refl _)
      · linarith
    rw [min_eq_right h1, max_eq_right h2]
  · intro hboost
    simp only [updateHotWaterState, hboost, Bool.false_eq_true, if_false]
    set tgt := min cfg.maxTemperatureC (max cfg.minTemperatureC st.targetTemperatureC) with htgt
    set lo := st.waterTemperatureC - cfg.standbyLossPerHourC / 3600 * (simMs / 1000) with hlo
    have h1 : min tgt lo ≤ cfg.maxTemperatureC := le_trans (min_le_left _ _) (min_le_left _ _)
    rw [min_eq_right h1]

/-- Witness for C5 at the spec's Scenario C: boost on, target 50 °C,
current 40 °C, 2000 W heater, 200 L tank, 60 s cycle; the rise is
exactly 300/2093 ≈ 0.1433 °C and the result stays below 50 °C. -/
theorem hot_water_cycle_update_witness :
    (updateHotWaterState 60000 ⟨200, 2000, 1/2, 10, 75⟩
      ⟨true, true, 40, 50, 0⟩).waterTemperatureC = 40 + 300/2093 ∧
    (40:ℚ) + 300/2093 ≤ 50 ∧ |(300:ℚ)/2093 - 143/1000| < 1/1000 := by
  have h := (hot_water_cycle_update 60000 ⟨200, 2000, 1/2, 10, 75⟩
    ⟨true, true, 40, 50, 0⟩).1 rfl (by norm_num) (by norm_num) (by norm_num)
    (by norm_num) (by norm_num) (by norm_num)
  rw [h]
  norm_num [abs_lt]

/-- Every requested dwelling has an entry in the batch weather map. -/
theorem lookup_getWeatherDataBatch (dwellings : List Dwelling)
    (api : Location → Except String WeatherData) (fallback : WeatherData)
    (d : Dwelling) (hd : d ∈ dwellings) :
    ∃ w, List.lookup d.dwellingId (getWeatherDataBatch dwellings api fallback) = some w := by
  induction dwellings with
  | nil => cases hd
  | cons x xs ih =>
    by_cases hbeq : d.dwellingId == x.dwellingId
    · exact ⟨getCurrentWeatherData (api x.location) fallback,
        by simp [getWeatherDataBatch, List.lookup, hbeq]⟩
    · have hmem : d ∈ xs := by
        rcases List.mem_cons.mp hd with h | h
        · exact absurd (by rw [h] : d.dwellingId = x.dwellingId) (by simpa using hbeq)
        · exact h
      obtain ⟨w, hw⟩ := ih hmem
      exact ⟨w, by simpa [getWeatherDataBatch, List.lookup, hbeq] using hw⟩

/-- **C3 counterexample**: two dwellings; the weather fetch throws for
the first.  `getCurrentWeatherData` catches the error and substitutes
the fallback weather, so the first dwelling is *not* excluded: the
cycle publishes updates for both dwellings, the first simulated under
fallback weather.  The claim (exclusion on weather failure) is false. -/
theorem weather_failure_exclusion_counterexample :
    runSimulationCycleUpdates
        [⟨"d1", ⟨0, 0⟩⟩, ⟨"d2", ⟨1, 1⟩⟩]
        (fun loc => if loc = ⟨0, 0⟩ then Except.error "timeout"
          else Except.ok ⟨500, 20, 10, "live"⟩)
        ⟨0, 22, 30, "fallback"⟩
        (fun d w => some ⟨d.dwellingId, w⟩)
      = [⟨"d1", ⟨0, 22, 30, "fallback"⟩⟩, ⟨"d2", ⟨500, 20, 10, "live"⟩⟩] ∧
    (⟨"d1", ⟨0, 22, 30, "fallback"⟩⟩ : SimulationUpdate) ∈
      runSimulationCycleUpdates
        [⟨"d1", ⟨0, 0⟩⟩, ⟨"d2", ⟨1, 1⟩⟩]
        (fun loc => if loc = ⟨0, 0⟩ then Except.error "timeout"
          else Except.ok ⟨500, 20, 10, "live"⟩)
        ⟨0, 22, 30, "fallback"⟩
        (fun d w => some ⟨d.dwellingId, w⟩) := by
  constructor
  · rfl
  · simp [runSimulationCycleUpdates, getWeatherDataBatch, getCurrentWeatherData]

/-- **C3 (amended)**: a weather-fetch failure never excludes a
dwelling: `getCurrentWeatherData` catches every failure and returns
fallback weather, so the batch map has an entry for every requested
dwelling, and any dwelling whose simulation yields an update is
published that cycle (dwellings are dropped only when the simulation
itself throws or returns null, modelled by `simulate` returning
`none`). -/
theorem weather_failure_does_not_exclude (dwellings : List Dwelling)
    (api : Location → Except String WeatherData) (fallback : WeatherData)
    (simulate : Dwelling → WeatherData → Option SimulationUpdate)
    (d : Dwelling) (hd : d ∈ dwellings) :
    ∃ w, List.lookup d.dwellingId (getWeatherDataBatch dwellings api fallback) = some w ∧
      ∀ u, simulate d w = some u →
        u ∈ runSimulationCycleUpdates dwellings api fallback simulate := by
  obtain ⟨w, hw⟩ := lookup_getWeatherDataBatch dwellings api fallback d hd
  refine ⟨w, hw, fun u hu => ?_⟩
  simp only [runSimulationCycleUpdates]
  exact List.mem_filterMap.mpr ⟨d, hd, by rw [hw]; exact hu⟩

/-- Witness for C3 (amended): the dwelling with the failing fetch from
the counterexample scenario is published. -/
theorem weather_failure_does_not_exclude_witness :
    (⟨"d1", ⟨0, 22, 30, "fallback"⟩⟩ : SimulationUpdate) ∈
      runSimulationCycleUpdates
        [⟨"d1", ⟨0, 0⟩⟩]
        (fun _ => Except.error "timeout")
        ⟨0, 22, 30, "fallback"⟩
        (fun d w => some ⟨d.dwellingId, w⟩) := by
  obtain ⟨w, hw, hpub⟩ := weather_failure_does_not_exclude
    [⟨"d1", ⟨0, 0⟩⟩] (fun _ => Except.error "timeout") ⟨0, 22, 30, "fallback"⟩
    (fun d w => some ⟨d.dwellingId, w⟩) ⟨"d1", ⟨0, 0⟩⟩ (List.mem_singleton.mpr rfl)
  have hwval : w = ⟨0, 22, 30, "fallback"⟩ := by
    symm
    simpa [getWeatherDataBatch, getCurrentWeatherData, List.lookup] using hw
  exact hpub _ (by rw [hwval])

end HEMS
